import Mathlib

/-!
Verification development for the event-driven order-processing service
(Express API `src/api/src/routes/orders.js`, worker `worker/src/worker.js`,
MySQL schema `db/schema.sql`).

The embedding is shallow.  Every numeric value the pipeline handles is a
finite decimal (request amounts, the literals `0.18` and `999999.9999`,
the worker's `Math.round(x * 10000) / 10000` four-place rounding, and
the DECIMAL(12,4) table columns), so numbers are modelled as exact
scaled decimals `m / 10^e` with integer mantissa — double-precision
noise is not the subject of any claim and is not modelled.  Wall-clock
timestamps (`NOW()`, `new Date()`) are abstract `Nat` instants passed
explicitly, and each fallible external call (Redis, MySQL) is driven by
an explicit fault flag saying whether that call throws.  The API
handlers additionally return the list of external calls they attempted,
so properties of the form "no Queue append / no Store consult" are
statable.
-/

namespace OrderService

/-! ## Exact decimal numbers -/

/-- An exact decimal number `m / 10 ^ e`.  All values flowing through
the pipeline are finite decimals, so this represents them exactly.
Derived equality is representation equality (same mantissa and scale),
which is finer than numeric equality; every theorem below that equates
two `Dec` values equates values built along identical code paths, where
the distinction is immaterial. -/
structure Dec where
  m : ℤ
  e : ℕ
deriving DecidableEq

namespace Dec

/-- Numeric value of a decimal, for the semantic bridge lemmas. -/
def val (x : Dec) : ℚ := (x.m : ℚ) / 10 ^ x.e

/-- Embed a natural number. -/
def ofNat (n : ℕ) : Dec := ⟨n, 0⟩

instance : OfNat Dec n := ⟨Dec.ofNat n⟩

/-- Exact product. -/
def mul (a b : Dec) : Dec := ⟨a.m * b.m, a.e + b.e⟩

/-- Exact sum, at the product of the two scales
(`a/10^i + b/10^j = (a * 10^j + b * 10^i) / 10^(i+j)`). -/
def add (a b : Dec) : Dec := ⟨a.m * 10 ^ b.e + b.m * 10 ^ a.e, a.e + b.e⟩

instance : LE Dec := ⟨fun a b => a.m * 10 ^ b.e ≤ b.m * 10 ^ a.e⟩
instance : LT Dec := ⟨fun a b => a.m * 10 ^ b.e < b.m * 10 ^ a.e⟩

instance (a b : Dec) : Decidable (a ≤ b) := Int.decLe _ _
instance (a b : Dec) : Decidable (a < b) := Int.decLt _ _

/-- JavaScript truthiness of a number: falsy exactly when it is zero
(`NaN` never reaches a `Dec`). -/
def isZero (a : Dec) : Bool := a.m == 0

/-- JavaScript `Math.round` on an exact value: round half toward
positive infinity, i.e. `⌊x + 1/2⌋`, computed on the representation as
`⌊(2m + 10^e) / (2 * 10^e)⌋` with flooring integer division. -/
def jround (x : Dec) : ℤ := Int.ediv (2 * x.m + 10 ^ x.e) (2 * 10 ^ x.e)

end Dec

/-- The worker's four-decimal-place rounding `Math.round(x * 10000) / 10000`,
producing a scale-4 decimal. -/
def round4 (x : Dec) : Dec := ⟨Dec.jround (x.mul ⟨10 ^ 4, 0⟩), 4⟩

/-! ## Data model: MySQL `orders` table and Redis state -/

/-- Status enumeration of the `orders` table
(`ENUM('processing','completed','failed')` in `db/schema.sql`). -/
inductive Status where
  | processing
  | completed
  | failed
deriving DecidableEq

/-- One row of the `orders` table.  `id` is the auto-increment primary
key, `order_id` the unique business key; money columns are
DECIMAL(12,4) values, timestamps are abstract instants, `processed_at`
is nullable (`TIMESTAMP NULL`). -/
structure OrderRow where
  id : Nat
  order_id : String
  amount : Dec
  tax : Dec
  total : Dec
  status : Status
  created_at : Nat
  updated_at : Nat
  processed_at : Option Nat
deriving DecidableEq

/-- The deterministic business content of a row: every column except
the wall-clock bookkeeping columns `updated_at` and `processed_at`. -/
def rowCore (r : OrderRow) : Nat × String × Dec × Dec × Dec × Status × Nat :=
  (r.id, r.order_id, r.amount, r.tax, r.total, r.status, r.created_at)

/-- The `orders` table: its rows plus the auto-increment counter. -/
structure Store where
  rows : List OrderRow
  nextId : Nat
deriving DecidableEq

/-- Evaluates `SELECT ... FROM orders WHERE order_id = ?` under the
unique key `unique_order_id`. -/
def findOrder (st : Store) (oid : String) : Option OrderRow :=
  st.rows.find? (fun r => r.order_id == oid)

/-- The `ON DUPLICATE KEY UPDATE` arm of the worker's upsert: overwrite
`amount, tax, total, status, processed_at` with the inserted values and
set `updated_at = NOW()`; all other columns (id, order_id, created_at)
are untouched. -/
def updRow (oid : String) (amount tax total : Dec) (now : Nat) (r : OrderRow) : OrderRow :=
  if r.order_id == oid then
    { r with amount := amount, tax := tax, total := total,
             status := Status.completed, processed_at := some now, updated_at := now }
  else r

/-- The worker's
`INSERT INTO orders (order_id, amount, tax, total, status, processed_at)
VALUES (?, ?, ?, ?, 'completed', NOW()) ON DUPLICATE KEY UPDATE ...`.
On the insert path `created_at` and `updated_at` take their schema
defaults (`CURRENT_TIMESTAMP`). -/
def upsertOrder (st : Store) (oid : String) (amount tax total : Dec) (now : Nat) : Store :=
  match st.rows.find? (fun r => r.order_id == oid) with
  | some _ => { st with rows := st.rows.map (updRow oid amount tax total now) }
  | none =>
      { rows := st.rows ++
          [⟨st.nextId, oid, amount, tax, total, Status.completed, now, now, some now⟩],
        nextId := st.nextId + 1 }

/-- The decoded JSON payload cached under `order:<order_id>` (the fields
shared by the worker's `orderData` and the read path's `enrichedOrder`;
free-form metadata such as customer id and timestamps-as-strings are
not tracked). -/
structure CacheVal where
  order_id : String
  amount : Dec
  tax : Dec
  total : Dec
  status : Status
deriving DecidableEq

/-- Redis key-value state; expiry of entries is not modelled (no claim
is about the passage of TTL time). -/
abbrev Cache := List (String × CacheVal)

/-- Evaluates Redis `GET key`. -/
def cacheFind (c : Cache) (k : String) : Option CacheVal :=
  (List.find? (fun p => p.1 == k) c).map (fun p => p.2)

/-- Evaluates Redis `SETEX key ttl value`: overwrite any previous value. -/
def cacheInsert (c : Cache) (k : String) (v : CacheVal) : Cache :=
  (k, v) :: List.filter (fun p => !(p.1 == k)) c

/-- One message appended to the `orders_stream` Redis stream by the
producer (`XADD`); the serialized field map carries `order_id`,
`amount` and a submission timestamp. -/
structure QueueEvent where
  order_id : String
  amount : Dec
  created_at : Nat
deriving DecidableEq

/-- Joint external state seen by the handlers: Redis cache, MySQL
table, Redis stream. -/
structure World where
  cache : Cache
  store : Store
  queue : List QueueEvent
deriving DecidableEq

def emptyStore : Store := ⟨[], 0⟩

def emptyWorld : World := ⟨[], emptyStore, []⟩

/-- Cache key for an order: the source's template `order:<order_id>`. -/
def cacheKey (oid : String) : String := "order:" ++ oid

/-- External calls a handler can attempt, recorded in order. -/
inductive Effect where
  | cacheGet (key : String)
  | cacheExpire (key : String) (ttl : Nat)
  | cacheSetex (key : String) (ttl : Nat)
  | dbSelect (oid : String)
  | dbUpsert (oid : String)
  | xadd (oid : String)
deriving DecidableEq

/-! ## Producer / admission: the POST /orders handler in orders.js -/

/-- Fault injection for the POST handler: whether each external call
throws when attempted. -/
structure SubmitFaults where
  cacheGet : Bool
  dbSelect : Bool
  xadd : Bool
deriving DecidableEq

def noSubmitFaults : SubmitFaults := ⟨false, false, false⟩

/-- Outcome of the POST handler, by response: the three 400 validation
responses, the two 409 duplicate responses, 201 queued, and the
top-level catch's 500. -/
inductive SubmitResult where
  | missingFields
  | invalidOrderId
  | invalidAmount
  | duplicateCache (snapshot : CacheVal)
  | duplicateDb (status : Status)
  | queued (order_id : String) (amount : Dec)
  | serverError
deriving DecidableEq

/-- The regex test of the source, `/^[a-zA-Z0-9_-]+$/.test(order_id)`:
one or more ASCII letters, digits, underscores or hyphens. -/
def matchesIdPattern (s : String) : Bool :=
  !s.isEmpty && s.toList.all (fun c => c.isAlphanum || c == '_' || c == '-')

/-- The spec's order-id well-formedness `[A-Za-z0-9_-]{1,100}`: the
pattern plus the handler's separate `length > 100` bound. -/
def validOrderId (s : String) : Bool :=
  matchesIdPattern s && decide (s.length ≤ 100)

/-- Whether a result is one of the 400 validation rejections. -/
def isValidationError : SubmitResult → Bool
  | SubmitResult.missingFields => true
  | SubmitResult.invalidOrderId => true
  | SubmitResult.invalidAmount => true
  | _ => false

/-- The maximum admissible amount, the handler's literal `999999.9999`. -/
def maxAmount : Dec := ⟨9999999999, 4⟩

/-- The POST handler's tail after validation has passed: the
cache-then-database duplicate check followed by the `XADD`.  None of
these calls is wrapped in a local try, so the first throwing call
aborts the handler into its top-level catch (`serverError`). -/
def submitChecked (order_id : String) (amount : Dec) (f : SubmitFaults) (now : Nat)
    (w : World) : SubmitResult × World × List Effect :=
  if f.cacheGet then
    (SubmitResult.serverError, w, [Effect.cacheGet (cacheKey order_id)])
  else
    match cacheFind w.cache (cacheKey order_id) with
    | some cv =>
        (SubmitResult.duplicateCache cv, w, [Effect.cacheGet (cacheKey order_id)])
    | none =>
        if f.dbSelect then
          (SubmitResult.serverError, w,
            [Effect.cacheGet (cacheKey order_id), Effect.dbSelect order_id])
        else
          match findOrder w.store order_id with
          | some r =>
              (SubmitResult.duplicateDb r.status, w,
                [Effect.cacheGet (cacheKey order_id), Effect.dbSelect order_id])
          | none =>
              if f.xadd then
                (SubmitResult.serverError, w,
                  [Effect.cacheGet (cacheKey order_id), Effect.dbSelect order_id,
                   Effect.xadd order_id])
              else
                (SubmitResult.queued order_id amount,
                  { w with queue := w.queue ++ [⟨order_id, amount, now⟩] },
                  [Effect.cacheGet (cacheKey order_id), Effect.dbSelect order_id,
                   Effect.xadd order_id])

/-- The POST /orders handler body.  The request body's `order_id` and
`amount` are modelled as an already-parsed string and decimal number;
JS falsiness of `!order_id || !amount` is the empty string / zero, and
`Number.isFinite(numericAmount)` holds for every `Dec`. -/
def submit (order_id : String) (amount : Dec) (f : SubmitFaults) (now : Nat) (w : World) :
    SubmitResult × World × List Effect :=
  if order_id == "" || amount.isZero then
    (SubmitResult.missingFields, w, [])
  else if !matchesIdPattern order_id || decide (100 < order_id.length) then
    (SubmitResult.invalidOrderId, w, [])
  else if decide (amount ≤ (0 : Dec)) || decide (maxAmount < amount) then
    (SubmitResult.invalidAmount, w, [])
  else
    submitChecked order_id amount f now w

/-! ## Read path: the GET /orders/:order_id handler in orders.js -/

/-- Fault injection for the GET handler. -/
structure GetFaults where
  cacheGet : Bool
  cacheExpire : Bool
  dbSelect : Bool
  cacheSetex : Bool
deriving DecidableEq

def noGetFaults : GetFaults := ⟨false, false, false, false⟩

/-- Outcome of the GET handler: 400 validation, 200 from cache
(`cache_hit: true`), 200 from the database (`cache_hit: false`),
404, or the top-level catch's 500. -/
inductive GetResult where
  | badRequest
  | foundCache (snapshot : CacheVal)
  | foundDb (r : OrderRow)
  | notFound
  | serverError
deriving DecidableEq

/-- Whether `order_id.trim().length === 0`: every character is
whitespace. -/
def trimEmpty (s : String) : Bool := s.toList.all Char.isWhitespace

/-- The cache payload written back by the read path on a database hit
(the `enrichedOrder` it serializes, restricted to the tracked fields). -/
def cvOfRow (r : OrderRow) : CacheVal :=
  ⟨r.order_id, r.amount, r.tax, r.total, r.status⟩

/-- The database half of the GET handler, reached on a cache miss or a
swallowed cache error; `tr` is the trace of calls already attempted.
The `db.query` is not locally guarded, so its fault escapes to the
top-level catch (500); the `redis.setex` back-fill is in its own
try/catch and its fault is swallowed. -/
def getOrderDb (oid : String) (f : GetFaults) (w : World) (tr : List Effect) :
    GetResult × World × List Effect :=
  if f.dbSelect then
    (GetResult.serverError, w, tr ++ [Effect.dbSelect oid])
  else
    match findOrder w.store oid with
    | none => (GetResult.notFound, w, tr ++ [Effect.dbSelect oid])
    | some r =>
        if f.cacheSetex then
          (GetResult.foundDb r, w,
            tr ++ [Effect.dbSelect oid, Effect.cacheSetex (cacheKey oid) 3600])
        else
          (GetResult.foundDb r,
            { w with cache := cacheInsert w.cache (cacheKey oid) (cvOfRow r) },
            tr ++ [Effect.dbSelect oid, Effect.cacheSetex (cacheKey oid) 3600])

/-- The GET /orders/:order_id handler body.  Validation runs before any
external call.  The cache read and the TTL refresh sit in one local
try/catch: a throw from either is logged and control falls through to
the database lookup. -/
def getOrder (oid : String) (f : GetFaults) (w : World) :
    GetResult × World × List Effect :=
  if oid == "" || trimEmpty oid then
    (GetResult.badRequest, w, [])
  else if !matchesIdPattern oid || decide (100 < oid.length) then
    (GetResult.badRequest, w, [])
  else if f.cacheGet then
    getOrderDb oid f w [Effect.cacheGet (cacheKey oid)]
  else
    match cacheFind w.cache (cacheKey oid) with
    | none => getOrderDb oid f w [Effect.cacheGet (cacheKey oid)]
    | some cv =>
        if f.cacheExpire then
          getOrderDb oid f w
            [Effect.cacheGet (cacheKey oid), Effect.cacheExpire (cacheKey oid) 3600]
        else
          (GetResult.foundCache cv, w,
            [Effect.cacheGet (cacheKey oid), Effect.cacheExpire (cacheKey oid) 3600])

/-! ## Consumer: `processOrders` in worker.js -/

/-- Digit list to number, most significant first. -/
def digitsToNat (l : List Char) : ℕ :=
  l.foldl (fun n c => 10 * n + (c.toNat - 48)) 0

/-- Strip leading and trailing whitespace, as `Number()` does. -/
def trimChars (l : List Char) : List Char :=
  ((l.dropWhile Char.isWhitespace).reverse.dropWhile Char.isWhitespace).reverse

def intSign (neg : Bool) (n : ℕ) : ℤ := if neg then -(n : ℤ) else (n : ℤ)

/-- JavaScript `Number(s)` on a string, under the worker's subsequent
`Number.isFinite` test: `none` stands for any non-finite result (`NaN`
or an infinity), `some d` for a finite value.  Modelled for plain
decimal literals with optional sign and fraction — the whitespace-only
string is 0, exponent and radix notations are not modelled (no stream
field uses them: producers serialize plain decimals). -/
def jsNumber (s : String) : Option Dec :=
  let cs := trimChars s.toList
  if cs.isEmpty then some ⟨0, 0⟩
  else
    let body := match cs with
      | '-' :: r => (true, r)
      | '+' :: r => (false, r)
      | _ => (false, cs)
    let ip := body.2.takeWhile Char.isDigit
    match body.2.dropWhile Char.isDigit with
    | [] => if ip.isEmpty then none else some ⟨intSign body.1 (digitsToNat ip), 0⟩
    | '.' :: fp =>
        if fp.all Char.isDigit && !(ip.isEmpty && fp.isEmpty) then
          some ⟨intSign body.1 (digitsToNat ip * 10 ^ fp.length + digitsToNat fp), fp.length⟩
        else none
    | _ => none

/-- A raw stream message's field list, as handed to the worker by
`XREAD` (flat key/value pairs, all strings). -/
abbrev RawEntry := List (String × String)

/-- The worker's field decoding `data[fields[i]] = fields[i + 1]`:
object assignment, so a repeated key keeps its last value. -/
def objGet (fields : RawEntry) (k : String) : Option String :=
  fields.foldl (fun acc kv => if kv.1 == k then some kv.2 else acc) none

/-- The worker's tax rule `Math.round(amountNum * 0.18 * 10000) / 10000`
(`0.18` is the exact decimal 18/100 here). -/
def taxOf (a : Dec) : Dec := round4 (a.mul ⟨18, 2⟩)

/-- The worker's total rule `Math.round((amountNum + tax) * 10000) / 10000`. -/
def totalOf (a : Dec) : Dec := round4 (a.add (taxOf a))

/-- The worker's persistence step for a decoded order: the idempotent
upsert with the computed tax and total. -/
def persistStep (oid : String) (a : Dec) (now : Nat) (st : Store) : Store :=
  upsertOrder st oid a (taxOf a) (totalOf a) now

/-- Fault injection for one consumer entry: whether the upsert
`db.query` throws and whether the write-through `redis.setex` throws. -/
structure EntryFaults where
  dbUpsert : Bool
  cacheSetex : Bool
deriving DecidableEq

def noEntryFaults : EntryFaults := ⟨false, false⟩

/-- How handling one stream entry ends.
`skipped`: a malformed-data guard hit `continue` (logged, no retry).
`ok`: upsert and cache write both succeeded.
`crashInCatch`: an external call threw, the per-message catch block
ran, and building its log object read the identifier `data` — which is
block-scoped to the try block and not visible in the catch — so the
handler itself raised a `ReferenceError` that escapes to the loop-level
catch, abandoning the rest of the batch. -/
inductive EntryOutcome where
  | skipped
  | ok
  | crashInCatch
deriving DecidableEq

/-- One iteration of the worker's inner per-message body (worker.js
lines 84–160): decode the field map, guard `!order_id || !amount`,
guard `!Number.isFinite(amountNum) || amountNum <= 0`, compute tax and
total, upsert, then write-through to the cache. -/
def processEntry (fields : RawEntry) (f : EntryFaults) (now : Nat) (w : World) :
    EntryOutcome × World :=
  match objGet fields "order_id", objGet fields "amount" with
  | some oid, some amt =>
      if oid == "" || amt == "" then (EntryOutcome.skipped, w)
      else
        match jsNumber amt with
        | none => (EntryOutcome.skipped, w)
        | some a =>
            if a ≤ (0 : Dec) then (EntryOutcome.skipped, w)
            else if f.dbUpsert then (EntryOutcome.crashInCatch, w)
            else
              let w1 : World := { w with store := persistStep oid a now w.store }
              if f.cacheSetex then (EntryOutcome.crashInCatch, w1)
              else
                let cv : CacheVal := ⟨oid, a, taxOf a, totalOf a, Status.completed⟩
                (EntryOutcome.ok,
                  { w1 with cache := cacheInsert w1.cache (cacheKey oid) cv })
  | _, _ => (EntryOutcome.skipped, w)

/-- Whether the worker's malformed-data guards drop this entry: missing
or empty `order_id` or `amount`, or an amount that is not a finite
positive number. -/
def malformedEntry (fields : RawEntry) : Bool :=
  match objGet fields "order_id", objGet fields "amount" with
  | some oid, some amt =>
      oid == "" || amt == "" ||
        (match jsNumber amt with
         | none => true
         | some a => decide (a ≤ (0 : Dec)))
  | _, _ => true

/-- Whether a batch ran to completion or was abandoned by an exception
reaching the loop-level catch. -/
inductive BatchResult where
  | completed
  | aborted
deriving DecidableEq

/-- The worker's double `for` over one `XREAD` result.  `cnt` threads
the `consecutiveErrors` counter: each fully-processed message resets it
to 0, a skip leaves it, and an escaping exception hands the batch's
remaining messages back unprocessed (the shutdown flag is modelled as
never set). -/
def processBatch : List (RawEntry × EntryFaults) → Nat → World → Nat →
    BatchResult × World × Nat
  | [], _, w, cnt => (BatchResult.completed, w, cnt)
  | (e, f) :: rest, now, w, cnt =>
      match processEntry e f now w with
      | (EntryOutcome.skipped, w1) => processBatch rest now w1 cnt
      | (EntryOutcome.ok, w1) => processBatch rest now w1 0
      | (EntryOutcome.crashInCatch, w1) => (BatchResult.aborted, w1, cnt)

/-- Loop state of `processOrders`: only the error counter and the
external world.  The read position is NOT part of the state: the source
passes the literal `'$'` to `XREAD` on every iteration, so each read
can only ever return entries appended to the stream during that call's
block window. -/
structure LoopState where
  consecutiveErrors : Nat
  world : World
deriving DecidableEq

/-- One iteration of the worker's `while (!isShuttingDown)` loop.
`arrivals` are the entries that were appended to `orders_stream` during
this iteration's blocking read — with `XREAD ... STREAMS orders_stream $`
those are the only entries the read can deliver, whatever is already in
the stream.  A null read result resets the error counter; an exception
escaping the batch increments the counter as it stood when the
exception was raised (the backoff sleep and the error ceiling of 5 have
no observable effect on the modelled state). -/
def loopIter (arrivals : List (RawEntry × EntryFaults)) (now : Nat) (s : LoopState) :
    LoopState :=
  match arrivals with
  | [] => { s with consecutiveErrors := 0 }
  | _ :: _ =>
      match processBatch arrivals now s.world s.consecutiveErrors with
      | (BatchResult.completed, w, cnt) => ⟨cnt, w⟩
      | (BatchResult.aborted, w, cnt) => ⟨cnt + 1, w⟩

/-! ## Concrete states and fault patterns used by the witnesses -/

/-- A pre-existing Store row with primary key 3 and `created_at = 11`. -/
def sampleRow : OrderRow :=
  ⟨3, "ord-1", ⟨500000, 4⟩, ⟨90000, 4⟩, ⟨590000, 4⟩, Status.completed, 11, 12, some 12⟩

def sampleStore : Store := ⟨[sampleRow], 4⟩

/-- Faults making the admission-side `redis.get` throw. -/
def cacheGetFault : SubmitFaults := ⟨true, false, false⟩

/-- A well-formed stream entry for `ord-1`, amount serialized as `100`. -/
def ord1Entry : RawEntry := [("order_id", "ord-1"), ("amount", "100")]

/-- Faults making the worker's upsert `db.query` throw. -/
def dbUpsertFault : EntryFaults := ⟨true, false⟩

/-- Faults making the worker's write-through `redis.setex` throw. -/
def cacheSetexFault : EntryFaults := ⟨false, true⟩

/-! ## Semantic bridge: the decimal operations compute rational facts -/

theorem Dec.val_ofNat (n : ℕ) : (Dec.ofNat n).val = n := by
  simp [Dec.val, Dec.ofNat]

theorem Dec.val_mul (a b : Dec) : (a.mul b).val = a.val * b.val := by
  simp only [Dec.val, Dec.mul]
  push_cast
  ring

theorem Dec.val_add (a b : Dec) : (a.add b).val = a.val + b.val := by
  simp only [Dec.val, Dec.add]
  push_cast
  rw [pow_add]
  field_simp

theorem Dec.le_iff_val_le (a b : Dec) : a ≤ b ↔ a.val ≤ b.val := by
  show a.m * 10 ^ b.e ≤ b.m * 10 ^ a.e ↔ _
  unfold Dec.val
  rw [div_le_div_iff₀ (by positivity) (by positivity)]
  constructor
  · intro h
    exact_mod_cast h
  · intro h
    exact_mod_cast h

theorem Dec.lt_iff_val_lt (a b : Dec) : a < b ↔ a.val < b.val := by
  show a.m * 10 ^ b.e < b.m * 10 ^ a.e ↔ _
  unfold Dec.val
  rw [div_lt_div_iff₀ (by positivity) (by positivity)]
  constructor
  · intro h
    exact_mod_cast h
  · intro h
    exact_mod_cast h

/-! ## Lemmas about the upsert -/

theorem updRow_keeps_order_id (oid : String) (a tax tot : Dec) (now : Nat) (r : OrderRow) :
    (updRow oid a tax tot now r).order_id = r.order_id := by
  unfold updRow
  split <;> rfl

theorem find?_map_updRow (oid : String) (a tax tot : Dec) (now : Nat) (l : List OrderRow) :
    (l.map (updRow oid a tax tot now)).find? (fun r => r.order_id == oid)
      = (l.find? (fun r => r.order_id == oid)).map (updRow oid a tax tot now) := by
  induction l with
  | nil => rfl
  | cons r l ih =>
      by_cases h : (r.order_id == oid) = true
      · rw [List.map_cons,
          @List.find?_cons_of_pos _ (fun x => x.order_id == oid) _
            (l.map (updRow oid a tax tot now))
            (by simp only [updRow_keeps_order_id]; exact h),
          @List.find?_cons_of_pos _ (fun x => x.order_id == oid) r l h, Option.map_some']
      · rw [List.map_cons,
          @List.find?_cons_of_neg _ (fun x => x.order_id == oid) _
            (l.map (updRow oid a tax tot now))
            (by simp only [updRow_keeps_order_id]; exact h),
          @List.find?_cons_of_neg _ (fun x => x.order_id == oid) r l h, ih]

theorem order_id_of_findOrder {st : Store} {oid : String} {r : OrderRow}
    (h : findOrder st oid = some r) : r.order_id = oid := by
  have h2 := List.find?_some h
  exact beq_iff_eq.mp h2

/-- After the worker's upsert the row under `oid` carries exactly the
inserted business values, whatever was there before; only the primary
key and `created_at` depend on the prior state. -/
theorem findOrder_upsert_self (st : Store) (oid : String) (a tax tot : Dec) (now : Nat) :
    ∃ i c, findOrder (upsertOrder st oid a tax tot now) oid =
      some ⟨i, oid, a, tax, tot, Status.completed, c, now, some now⟩ := by
  unfold findOrder upsertOrder
  cases h : st.rows.find? (fun r => r.order_id == oid) with
  | none =>
      refine ⟨st.nextId, now, ?_⟩
      rw [List.find?_append, h, Option.none_or]
      simp [List.find?]
  | some r =>
      refine ⟨r.id, r.created_at, ?_⟩
      have h2 := List.find?_some h
      have hro : r.order_id = oid := beq_iff_eq.mp h2
      rw [find?_map_updRow, h, Option.map_some']
      unfold updRow
      rw [if_pos (beq_iff_eq.mpr hro)]
      cases r
      simp only [OrderRow.mk.injEq] at hro ⊢
      simp [hro]

/-- On an existing row the upsert takes the `ON DUPLICATE KEY UPDATE`
arm: the row keeps its `id`, `order_id` and `created_at` and has the
remaining columns overwritten. -/
theorem findOrder_upsert_existing (st : Store) (oid : String) (a tax tot : Dec) (now : Nat)
    (r : OrderRow) (h : findOrder st oid = some r) :
    findOrder (upsertOrder st oid a tax tot now) oid =
      some { r with amount := a, tax := tax, total := tot,
                    status := Status.completed, processed_at := some now,
                    updated_at := now } := by
  unfold findOrder at h
  unfold findOrder upsertOrder
  rw [h]
  simp only
  rw [find?_map_updRow, h, Option.map_some']
  unfold updRow
  rw [if_pos (beq_iff_eq.mpr (order_id_of_findOrder h))]

/-! ## Claim C5: the persist step is idempotent under redelivery -/

/-- C5: for every valid OrderEvent, applying the Consumer's persist
step (the upsert of order_id, amount, tax, total, status=completed)
twice — simulating redelivery at instants `t1` and then `t2` — leaves
the Store row identical to applying it once: all columns agree up to
the wall-clock columns `updated_at`/`processed_at`, which simply carry
the instant of the (re)delivery; at equal instants the rows are equal
outright. -/
theorem persist_step_idempotent (oid : String) (a : Dec) (st : Store) (t1 t2 : Nat)
    (_hval : (0 : Dec) < a) :
    (Option.map rowCore (findOrder (persistStep oid a t2 (persistStep oid a t1 st)) oid)
        = Option.map rowCore (findOrder (persistStep oid a t1 st) oid))
    ∧ (t1 = t2 →
        findOrder (persistStep oid a t2 (persistStep oid a t1 st)) oid
          = findOrder (persistStep oid a t1 st) oid) := by
  clear _hval
  obtain ⟨i, c, h1⟩ := findOrder_upsert_self st oid a (taxOf a) (totalOf a) t1
  have h1' : findOrder (persistStep oid a t1 st) oid =
      some ⟨i, oid, a, taxOf a, totalOf a, Status.completed, c, t1, some t1⟩ := h1
  have h2 := findOrder_upsert_existing (persistStep oid a t1 st) oid a (taxOf a) (totalOf a)
    t2 _ h1'
  have hps : persistStep oid a t2 (persistStep oid a t1 st)
      = upsertOrder (persistStep oid a t1 st) oid a (taxOf a) (totalOf a) t2 := rfl
  constructor
  · rw [hps, h2, h1']
    rfl
  · intro ht
    subst ht
    rw [hps, h2, h1']

theorem persist_step_idempotent_witness :
    Option.map rowCore
        (findOrder (persistStep "w5" ⟨42, 0⟩ 9 (persistStep "w5" ⟨42, 0⟩ 5 emptyStore)) "w5")
      = Option.map rowCore (findOrder (persistStep "w5" ⟨42, 0⟩ 5 emptyStore) "w5") :=
  (persist_step_idempotent "w5" ⟨42, 0⟩ emptyStore 5 9 (by decide)).1

/-! ## Claim C6: tax and total arithmetic -/

/-- C6: every processed event with amount `a` is persisted with
`tax = round(a * 0.18, 4)` and `total = round(a + tax, 4)` (the
worker's `Math.round(x * 10000) / 10000` on the exact decimals); in
particular, processing a stream entry with amount `100` yields the
Store row amount 100, tax 18.0000, total 118.0000 (scale-4 mantissas
1000000/100 ≡ 100, 180000, 1180000), status completed. -/
theorem consumer_tax_total_formula :
    (∀ (oid : String) (a : Dec) (st : Store) (t : Nat), (0 : Dec) < a →
      ∃ i c, findOrder (persistStep oid a t st) oid =
        some ⟨i, oid, a, round4 (a.mul ⟨18, 2⟩),
              round4 (a.add (round4 (a.mul ⟨18, 2⟩))),
              Status.completed, c, t, some t⟩)
    ∧ findOrder (processEntry [("order_id", "ord-1"), ("amount", "100")]
          noEntryFaults 7 emptyWorld).2.store "ord-1"
        = some ⟨0, "ord-1", ⟨100, 0⟩, ⟨180000, 4⟩, ⟨1180000, 4⟩,
                Status.completed, 7, 7, some 7⟩ := by
  constructor
  · intro oid a st t h
    exact findOrder_upsert_self st oid a (taxOf a) (totalOf a) t
  · decide

theorem consumer_tax_total_formula_witness :
    ∃ i c, findOrder (persistStep "w6" ⟨250, 1⟩ 3 emptyStore) "w6" =
      some ⟨i, "w6", ⟨250, 1⟩, round4 ((⟨250, 1⟩ : Dec).mul ⟨18, 2⟩),
            round4 ((⟨250, 1⟩ : Dec).add (round4 ((⟨250, 1⟩ : Dec).mul ⟨18, 2⟩))),
            Status.completed, c, 3, some 3⟩ :=
  consumer_tax_total_formula.1 "w6" ⟨250, 1⟩ emptyStore 3 (by decide)

/-! ## Claim C10: frame of the upsert on an existing row -/

/-- C10: when the Consumer re-processes an order_id whose row already
exists, the upsert overwrites only `amount, tax, total, status,
processed_at, updated_at` — stated through the record update, which
leaves every other column, in particular `id` and `created_at` (and
`order_id`), at the prior row's value. -/
theorem upsert_overwrites_only_business_columns (st : Store) (oid : String) (a : Dec)
    (now : Nat) (r : OrderRow) (h : findOrder st oid = some r) :
    findOrder (persistStep oid a now st) oid =
      some { r with amount := a, tax := taxOf a, total := totalOf a,
                    status := Status.completed, processed_at := some now,
                    updated_at := now } :=
  findOrder_upsert_existing st oid a (taxOf a) (totalOf a) now r h

theorem upsert_overwrites_only_business_columns_witness :
    findOrder (persistStep "ord-1" ⟨100, 0⟩ 20 sampleStore) "ord-1" =
      some ⟨3, "ord-1", ⟨100, 0⟩, ⟨180000, 4⟩, ⟨1180000, 4⟩,
            Status.completed, 11, 20, some 20⟩ := by
  have h := upsert_overwrites_only_business_columns sampleStore "ord-1" ⟨100, 0⟩ 20
    sampleRow (by decide)
  exact h.trans (by decide)

/-! ## Order facts about decimals, used by the validation claims -/

theorem Dec.pos_iff (a : Dec) : ((0 : Dec) < a) ↔ 0 < a.m := by
  show (0 : ℤ) * 10 ^ a.e < a.m * 10 ^ (0 : ℕ) ↔ 0 < a.m
  rw [zero_mul, pow_zero, mul_one]

/-- No branch of the POST handler's tail can produce a validation
rejection: those come only from the guards before it. -/
theorem submitChecked_not_validation (oid : String) (a : Dec) (f : SubmitFaults)
    (now : Nat) (w : World) :
    isValidationError (submitChecked oid a f now w).1 = false := by
  unfold submitChecked
  split
  · rfl
  · split
    · rfl
    · split
      · rfl
      · split
        · rfl
        · split
          · rfl
          · rfl

/-! ## Claim C7: admission validation is exactly the spec's predicate -/

/-- C7: the POST handler rejects with one of its 400 validation
responses exactly when the order id fails `[A-Za-z0-9_-]{1,100}` or the
amount is outside `(0, 999999.9999]` (finiteness is inherent to the
decimal model), and a validation rejection performs no external call at
all: the world is unchanged and the attempted-call trace is empty. -/
theorem submit_validation_characterisation (oid : String) (a : Dec) (f : SubmitFaults)
    (now : Nat) (w : World) :
    (isValidationError (submit oid a f now w).1 = true
        ↔ (validOrderId oid = false ∨ ¬ ((0 : Dec) < a ∧ a ≤ maxAmount)))
    ∧ (isValidationError (submit oid a f now w).1 = true →
        (submit oid a f now w).2.1 = w ∧ (submit oid a f now w).2.2 = []) := by
  unfold submit
  by_cases h1 : (oid == "" || a.isZero) = true
  · rw [if_pos h1]
    refine ⟨⟨fun _ => ?_, fun _ => rfl⟩, fun _ => ⟨rfl, rfl⟩⟩
    simp only [Bool.or_eq_true] at h1
    rcases h1 with h | h
    · left
      have he : oid = "" := beq_iff_eq.mp h
      subst he
      decide
    · right
      rintro ⟨hpos, -⟩
      have hm : a.m = 0 := beq_iff_eq.mp h
      rw [Dec.pos_iff] at hpos
      omega
  · rw [if_neg h1]
    by_cases h2 : (!matchesIdPattern oid || decide (100 < oid.length)) = true
    · rw [if_pos h2]
      refine ⟨⟨fun _ => ?_, fun _ => rfl⟩, fun _ => ⟨rfl, rfl⟩⟩
      left
      simp only [Bool.or_eq_true, Bool.not_eq_true', decide_eq_true_eq] at h2
      unfold validOrderId
      rcases h2 with h | h
      · rw [h, Bool.false_and]
      · rw [decide_eq_false (by omega : ¬ oid.length ≤ 100), Bool.and_false]
    · rw [if_neg h2]
      by_cases h3 : (decide (a ≤ (0 : Dec)) || decide (maxAmount < a)) = true
      · rw [if_pos h3]
        refine ⟨⟨fun _ => ?_, fun _ => rfl⟩, fun _ => ⟨rfl, rfl⟩⟩
        right
        simp only [Bool.or_eq_true, decide_eq_true_eq] at h3
        rintro ⟨hpos, hle⟩
        rcases h3 with h | h
        · exact absurd ((Dec.le_iff_val_le _ _).mp h)
            (not_le.mpr ((Dec.lt_iff_val_lt _ _).mp hpos))
        · exact absurd ((Dec.lt_iff_val_lt _ _).mp h)
            (not_lt.mpr ((Dec.le_iff_val_le _ _).mp hle))
      · rw [if_neg h3]
        have hnv := submitChecked_not_validation oid a f now w
        have hvo : validOrderId oid = true := by
          simp only [Bool.or_eq_true, Bool.not_eq_true', decide_eq_true_eq, not_or,
            Bool.not_eq_false] at h2
          obtain ⟨hp, hl⟩ := h2
          unfold validOrderId
          rw [hp, decide_eq_true (by omega : oid.length ≤ 100)]
          rfl
        have hrange : (0 : Dec) < a ∧ a ≤ maxAmount := by
          simp only [Bool.or_eq_true, decide_eq_true_eq, not_or] at h3
          obtain ⟨hna, hnb⟩ := h3
          constructor
          · exact (Dec.lt_iff_val_lt _ _).mpr
              (not_le.mp (fun hc => hna ((Dec.le_iff_val_le _ _).mpr hc)))
          · exact (Dec.le_iff_val_le _ _).mpr
              (not_lt.mp (fun hc => hnb ((Dec.lt_iff_val_lt _ _).mpr hc)))
        constructor
        · rw [hnv]
          simp [hvo, hrange.1, hrange.2]
        · intro hc
          rw [hnv] at hc
          simp at hc

theorem submit_validation_characterisation_witness :
    isValidationError (submit "bad id!" ⟨10, 0⟩ noSubmitFaults 0 emptyWorld).1 = true
    ∧ (submit "bad id!" ⟨10, 0⟩ noSubmitFaults 0 emptyWorld).2.1 = emptyWorld
    ∧ (submit "bad id!" ⟨10, 0⟩ noSubmitFaults 0 emptyWorld).2.2 = [] := by
  have h := submit_validation_characterisation "bad id!" ⟨10, 0⟩ noSubmitFaults 0 emptyWorld
  have hv : isValidationError (submit "bad id!" ⟨10, 0⟩ noSubmitFaults 0 emptyWorld).1 = true :=
    h.1.mpr (Or.inl (by decide))
  exact ⟨hv, h.2 hv⟩

/-! ## Claim C8: malformed stream entries are skipped and isolated -/

theorem malformed_skip (e : RawEntry) (f : EntryFaults) (now : Nat) (w : World)
    (h : malformedEntry e = true) : processEntry e f now w = (EntryOutcome.skipped, w) := by
  unfold malformedEntry at h
  unfold processEntry
  cases ho : objGet e "order_id" with
  | none =>
      cases ha : objGet e "amount" with
      | none => rfl
      | some amt => rfl
  | some oid =>
      cases ha : objGet e "amount" with
      | none => rfl
      | some amt =>
          rw [ho, ha] at h
          dsimp only at h ⊢
          by_cases hb : (oid == "" || amt == "") = true
          · rw [if_pos hb]
          · rw [if_neg hb]
            rw [Bool.or_eq_true] at h
            rcases h with h | h
            · exact absurd h hb
            · cases hj : jsNumber amt with
              | none => rfl
              | some a =>
                  rw [hj] at h
                  simp only [decide_eq_true_eq] at h
                  dsimp only
                  rw [if_pos h]

/-- C8: a stream entry with missing order id or amount, or a non-finite
or non-positive amount, is skipped without touching the Store or the
Cache (the world is returned unchanged), and dropping it from the front
of a batch leaves the processing of the remaining entries — and the
error counter — exactly as if it had not been there. -/
theorem malformed_entry_isolated (e : RawEntry) (f : EntryFaults) (now : Nat) (w : World)
    (h : malformedEntry e = true) :
    processEntry e f now w = (EntryOutcome.skipped, w)
    ∧ ∀ (rest : List (RawEntry × EntryFaults)) (cnt : Nat),
        processBatch ((e, f) :: rest) now w cnt = processBatch rest now w cnt := by
  have hs := malformed_skip e f now w h
  refine ⟨hs, fun rest cnt => ?_⟩
  simp only [processBatch]
  rw [hs]

theorem malformed_entry_isolated_witness :
    processEntry [("order_id", "only-id")] noEntryFaults 1 emptyWorld =
      (EntryOutcome.skipped, emptyWorld)
    ∧ processBatch [([("order_id", "only-id")], noEntryFaults),
        ([("order_id", "ok-1"), ("amount", "5")], noEntryFaults)] 1 emptyWorld 0
      = processBatch [([("order_id", "ok-1"), ("amount", "5")], noEntryFaults)] 1 emptyWorld 0 := by
  have h := malformed_entry_isolated [("order_id", "only-id")] noEntryFaults 1 emptyWorld
    (by decide)
  exact ⟨h.1, h.2 [([("order_id", "ok-1"), ("amount", "5")], noEntryFaults)] 0⟩

/-! ## Claim C9: the read path validates before any I/O -/

/-- C9: GET /orders/:order_id answers 400 for an order id that is empty
or fails `[A-Za-z0-9_-]{1,100}`, before consulting the Cache or the
Store: the world is unchanged and the trace of attempted external calls
is empty. -/
theorem getOrder_rejects_invalid_id_first (oid : String) (f : GetFaults) (w : World)
    (h : validOrderId oid = false) :
    getOrder oid f w = (GetResult.badRequest, w, []) := by
  unfold getOrder
  by_cases h1 : (oid == "" || trimEmpty oid) = true
  · rw [if_pos h1]
  · rw [if_neg h1]
    have h2 : (!matchesIdPattern oid || decide (100 < oid.length)) = true := by
      cases hm : matchesIdPattern oid with
      | false => simp [hm]
      | true =>
          unfold validOrderId at h
          rw [hm, Bool.true_and] at h
          have hl : ¬ oid.length ≤ 100 := of_decide_eq_false h
          simp [hm, (show 100 < oid.length by omega)]
    rw [if_pos h2]

theorem getOrder_rejects_invalid_id_first_witness :
    getOrder "bad id!" noGetFaults emptyWorld = (GetResult.badRequest, emptyWorld, []) :=
  getOrder_rejects_invalid_id_first "bad id!" noGetFaults emptyWorld (by decide)

/-! ## Reduction of submit past its validation guards -/

/-- For a well-formed order id and an in-range amount the three
validation guards are all false, so the handler proceeds to its
duplicate-check/append tail. -/
theorem submit_eq_checked (oid : String) (a : Dec) (f : SubmitFaults) (now : Nat)
    (w : World) (hv : validOrderId oid = true) (hpos : (0 : Dec) < a)
    (hle : a ≤ maxAmount) :
    submit oid a f now w = submitChecked oid a f now w := by
  have hv2 := hv
  rw [validOrderId, Bool.and_eq_true] at hv2
  obtain ⟨hp, hl⟩ := hv2
  have hlen : oid.length ≤ 100 := of_decide_eq_true hl
  have hne : (oid == "") = false := by
    cases he : (oid == "") with
    | false => rfl
    | true =>
        have he2 := beq_iff_eq.mp he
        subst he2
        exact absurd hp (by decide)
  have hnz : a.isZero = false := by
    cases hz : a.isZero with
    | false => rfl
    | true =>
        have hm : a.m = 0 := beq_iff_eq.mp hz
        rw [Dec.pos_iff] at hpos
        omega
  have hn0 : ¬ (a ≤ (0 : Dec)) := fun hc =>
    absurd ((Dec.le_iff_val_le _ _).mp hc) (not_le.mpr ((Dec.lt_iff_val_lt _ _).mp hpos))
  have hnm : ¬ (maxAmount < a) := fun hc =>
    absurd ((Dec.lt_iff_val_lt _ _).mp hc) (not_lt.mpr ((Dec.le_iff_val_le _ _).mp hle))
  unfold submit
  rw [if_neg (by rw [hne, hnz]; simp),
    if_neg (by rw [hp, decide_eq_false (by omega : ¬ 100 < oid.length)]; simp),
    if_neg (by rw [decide_eq_false hn0, decide_eq_false hnm]; simp)]

/-! ## Claim C1: duplicate detection before processing completes -/

/-- C1 counterexample: from the empty world, submitting `ord-1` twice
with no Consumer run in between yields TWO accepted admissions and two
Queue appends — no duplicate rejection — because admission writes no
duplicate-suppression marker to the Cache or the Store, and the
Consumer has not yet created anything for the duplicate check to see. -/
theorem submit_twice_before_processing_counterexample :
    (submit "ord-1" ⟨50, 0⟩ noSubmitFaults 0 emptyWorld).1
        = SubmitResult.queued "ord-1" ⟨50, 0⟩
    ∧ (submit "ord-1" ⟨50, 0⟩ noSubmitFaults 1
          (submit "ord-1" ⟨50, 0⟩ noSubmitFaults 0 emptyWorld).2.1).1
        = SubmitResult.queued "ord-1" ⟨50, 0⟩
    ∧ ((submit "ord-1" ⟨50, 0⟩ noSubmitFaults 1
          (submit "ord-1" ⟨50, 0⟩ noSubmitFaults 0 emptyWorld).2.1).2.1).queue.length
        = 2 := by
  decide

/-- C1 (amended): while `order_id` is visible in neither the Cache nor
the Store — in particular before the Consumer has processed the first
event — both submissions of the same `order_id` are accepted and the
Queue gains both events; no duplicate rejection occurs. -/
theorem submit_twice_before_processing_two_appends (oid : String) (a b : Dec)
    (t1 t2 : Nat) (w : World)
    (hv : validOrderId oid = true)
    (hpa : (0 : Dec) < a) (hla : a ≤ maxAmount)
    (hpb : (0 : Dec) < b) (hlb : b ≤ maxAmount)
    (hc : cacheFind w.cache (cacheKey oid) = none)
    (hs : findOrder w.store oid = none) :
    (submit oid a noSubmitFaults t1 w).1 = SubmitResult.queued oid a
    ∧ (submit oid b noSubmitFaults t2 (submit oid a noSubmitFaults t1 w).2.1).1
        = SubmitResult.queued oid b
    ∧ (submit oid b noSubmitFaults t2 (submit oid a noSubmitFaults t1 w).2.1).2.1.queue
        = w.queue ++ [⟨oid, a, t1⟩, ⟨oid, b, t2⟩] := by
  have e1 : submit oid a noSubmitFaults t1 w =
      (SubmitResult.queued oid a, { w with queue := w.queue ++ [⟨oid, a, t1⟩] },
        [Effect.cacheGet (cacheKey oid), Effect.dbSelect oid, Effect.xadd oid]) := by
    rw [submit_eq_checked oid a noSubmitFaults t1 w hv hpa hla]
    unfold submitChecked
    rw [if_neg (by decide : ¬ (noSubmitFaults.cacheGet = true)), hc]
    dsimp only
    rw [if_neg (by decide : ¬ (noSubmitFaults.dbSelect = true)), hs]
    dsimp only
    rw [if_neg (by decide : ¬ (noSubmitFaults.xadd = true))]
  have e2 : submit oid b noSubmitFaults t2
        ({ w with queue := w.queue ++ [⟨oid, a, t1⟩] } : World) =
      (SubmitResult.queued oid b,
        { w with queue := (w.queue ++ [⟨oid, a, t1⟩]) ++ [⟨oid, b, t2⟩] },
        [Effect.cacheGet (cacheKey oid), Effect.dbSelect oid, Effect.xadd oid]) := by
    rw [submit_eq_checked oid b noSubmitFaults t2 _ hv hpb hlb]
    unfold submitChecked
    rw [if_neg (by decide : ¬ (noSubmitFaults.cacheGet = true))]
    show (match cacheFind w.cache (cacheKey oid) with
      | some cv => _
      | none => _) = _
    rw [hc]
    dsimp only
    rw [if_neg (by decide : ¬ (noSubmitFaults.dbSelect = true))]
    show (match findOrder w.store oid with
      | some r => _
      | none => _) = _
    rw [hs]
    dsimp only
    rw [if_neg (by decide : ¬ (noSubmitFaults.xadd = true))]
  rw [e1]
  dsimp only
  rw [e2]
  refine ⟨rfl, rfl, ?_⟩
  dsimp only
  rw [List.append_assoc]
  rfl

theorem submit_twice_before_processing_two_appends_witness :
    (submit "w1" ⟨7, 0⟩ noSubmitFaults 4 emptyWorld).1 = SubmitResult.queued "w1" ⟨7, 0⟩
    ∧ (submit "w1" ⟨9, 0⟩ noSubmitFaults 5
          (submit "w1" ⟨7, 0⟩ noSubmitFaults 4 emptyWorld).2.1).1
        = SubmitResult.queued "w1" ⟨9, 0⟩
    ∧ (submit "w1" ⟨9, 0⟩ noSubmitFaults 5
          (submit "w1" ⟨7, 0⟩ noSubmitFaults 4 emptyWorld).2.1).2.1.queue
        = emptyWorld.queue ++ [⟨"w1", ⟨7, 0⟩, 4⟩, ⟨"w1", ⟨9, 0⟩, 5⟩] :=
  submit_twice_before_processing_two_appends "w1" ⟨7, 0⟩ ⟨9, 0⟩ 4 5 emptyWorld
    (by decide) (by decide) (by decide) (by decide) (by decide) (by decide) (by decide)

/-! ## Claim C4: cache failure during the admission duplicate check -/

/-- C4 counterexample: with the cache lookup throwing, a valid,
brand-new submission is answered with the top-level catch's 500 and
nothing is appended to the Queue; the handler does not fall through to
the Store check — the attempted-call trace stops at the cache read. -/
theorem submit_cache_fault_counterexample :
    (submit "ord-1" ⟨50, 0⟩ cacheGetFault 0 emptyWorld).1 = SubmitResult.serverError
    ∧ (submit "ord-1" ⟨50, 0⟩ cacheGetFault 0 emptyWorld).2.1 = emptyWorld
    ∧ (submit "ord-1" ⟨50, 0⟩ cacheGetFault 0 emptyWorld).2.2
        = [Effect.cacheGet "order:ord-1"] := by
  decide

/-- C4 (amended): if the Cache lookup throws during submit's duplicate
check, the failure is fatal to the request: the error escapes to the
handler's top-level catch, the caller gets the 500 response, and
neither a Store lookup nor a Queue append takes place (the world is
unchanged and the attempted-call trace is the cache read alone). -/
theorem submit_cache_fault_surfaces_500 (oid : String) (a : Dec) (f : SubmitFaults)
    (now : Nat) (w : World)
    (hv : validOrderId oid = true) (hpos : (0 : Dec) < a) (hle : a ≤ maxAmount)
    (hf : f.cacheGet = true) :
    submit oid a f now w =
      (SubmitResult.serverError, w, [Effect.cacheGet (cacheKey oid)]) := by
  rw [submit_eq_checked oid a f now w hv hpos hle]
  unfold submitChecked
  rw [if_pos hf]

theorem submit_cache_fault_surfaces_500_witness :
    submit "ord-1" ⟨50, 0⟩ cacheGetFault 0 emptyWorld =
      (SubmitResult.serverError, emptyWorld, [Effect.cacheGet (cacheKey "ord-1")]) :=
  submit_cache_fault_surfaces_500 "ord-1" ⟨50, 0⟩ cacheGetFault 0 emptyWorld
    (by decide) (by decide) (by decide) (by decide)

/-! ## Claim C2: position tracking and retry of failed entries -/

/-- C2 at its failing input.  Iteration 1 delivers one valid entry
whose upsert throws; the batch aborts and the loop error counter goes
to 1, with nothing persisted.  Iteration 2's read — the literal
`XREAD ... STREAMS orders_stream $` again, there being no last-seen
position anywhere in the loop state — can only return entries newly
appended during that call's block window, and none arrive; so the
failed entry is never re-read, and the world ends exactly as it began:
no row for `ord-1` is ever written. -/
theorem failed_entry_never_redelivered :
    (loopIter [(ord1Entry, dbUpsertFault)] 1 ⟨0, emptyWorld⟩).consecutiveErrors = 1
    ∧ (loopIter [] 2 (loopIter [(ord1Entry, dbUpsertFault)] 1 ⟨0, emptyWorld⟩)).world
        = emptyWorld
    ∧ findOrder (loopIter [] 2 (loopIter [(ord1Entry, dbUpsertFault)] 1
        ⟨0, emptyWorld⟩)).world.store "ord-1" = none := by
  decide

/-! ## Claim C3: cache write failure in the write-through step -/

/-- C3 at its failing input: a two-entry batch whose first entry
upserts fine but whose cache write throws.  The per-message catch's own
log argument reads the `data` binding, which is block-scoped to the try
block and invisible in the catch, so the handler raises a
ReferenceError that escapes to the loop-level catch: the batch ABORTS —
the first entry's row is persisted but nothing reaches the cache, and
the second, perfectly valid entry is never processed. -/
theorem cache_write_failure_aborts_batch :
    (processBatch [([("order_id", "a-1"), ("amount", "10")], cacheSetexFault),
        ([("order_id", "b-2"), ("amount", "20")], noEntryFaults)] 3 emptyWorld 0).1
      = BatchResult.aborted
    ∧ (findOrder (processBatch [([("order_id", "a-1"), ("amount", "10")], cacheSetexFault),
        ([("order_id", "b-2"), ("amount", "20")], noEntryFaults)] 3 emptyWorld 0).2.1.store
        "a-1").isSome = true
    ∧ findOrder (processBatch [([("order_id", "a-1"), ("amount", "10")], cacheSetexFault),
        ([("order_id", "b-2"), ("amount", "20")], noEntryFaults)] 3 emptyWorld 0).2.1.store
        "b-2" = none
    ∧ (processBatch [([("order_id", "a-1"), ("amount", "10")], cacheSetexFault),
        ([("order_id", "b-2"), ("amount", "20")], noEntryFaults)] 3 emptyWorld 0).2.1.cache
        = [] := by
  decide

end OrderService
